import Mathlib

/-!
Shallow embedding of the common module of app-dirs-rs (src/common.rs):
the AppInfo trait with its two implementations, the AppDataType
enumeration with its is_shared predicate, and the AppDirsError type with
its Display, description, cause and From behaviour.
-/

/-- Model of the external std::io::Error type. This module treats it as
an abstract value whose only observables here are its Display rendering
and its legacy description string, modelled as fields. -/
structure IoError where
  message : String
  description : String
deriving DecidableEq

/-- Trait for a struct that holds information about your app: name and
author string accessors (src/common.rs lines 15-20). -/
class AppInfo (α : Type) where
  name : α → String
  author : α → String

/-- Struct that holds fixed information about your app (src/common.rs
lines 31-37). The static string references of the Rust struct are
modelled as String values. -/
structure StaticAppInfo where
  name : String
  author : String
deriving DecidableEq

/-- Struct that holds owned information about your app (src/common.rs
lines 48-54). -/
structure OwningAppInfo where
  name : String
  author : String
deriving DecidableEq

/-- The impl of AppInfo for StaticAppInfo (src/common.rs lines 56-64):
both accessors return the corresponding field unchanged. -/
instance : AppInfo StaticAppInfo where
  name s := s.name
  author s := s.author

/-- The impl of AppInfo for OwningAppInfo (src/common.rs lines 66-74):
both accessors return the corresponding field unchanged. -/
instance : AppInfo OwningAppInfo where
  name o := o.name
  author o := o.author

/-- Model of the derived Hash for StaticAppInfo: the fields are fed to
the hasher state in declaration order, name first, then author. The
hasher is an arbitrary state-passing function on strings. -/
def StaticAppInfo.hashWith (h : String → Nat → Nat) (seed : Nat) (s : StaticAppInfo) : Nat :=
  h s.author (h s.name seed)

/-- Model of the derived Hash for OwningAppInfo, as for StaticAppInfo. -/
def OwningAppInfo.hashWith (h : String → Nat → Nat) (seed : Nat) (o : OwningAppInfo) : Nat :=
  h o.author (h o.name seed)

/-- Enum specifying the type of app data you want to store (src/common.rs
lines 85-97). -/
inductive AppDataType where
  | UserConfig
  | UserData
  | UserCache
  | SharedData
  | SharedConfig
deriving DecidableEq, BEq

/-- Returns true for non-user-specific data types (src/common.rs lines
101-107). The source match names SharedData and SharedConfig in an
or-pattern and sends every other value through a wildcard arm. -/
def AppDataType.is_shared : AppDataType → Bool
  | .SharedData | .SharedConfig => true
  | _ => false

/-- One arm pattern of the Rust match inside is_shared: either an
or-pattern of variant literals, or the wildcard pattern. -/
inductive MatchPat where
  | lits : List AppDataType → MatchPat
  | wild : MatchPat

/-- The arms of the match inside is_shared, transcribed from
src/common.rs lines 103-106: the or-pattern SharedData | SharedConfig
mapping to true, then the wildcard pattern mapping to false. -/
def is_shared_arms : List (MatchPat × Bool) :=
  [(MatchPat.lits [AppDataType.SharedData, AppDataType.SharedConfig], true),
   (MatchPat.wild, false)]

/-- Whether an arm pattern covers a scrutinee value. -/
def MatchPat.covers : MatchPat → AppDataType → Bool
  | MatchPat.lits l, t => l.contains t
  | MatchPat.wild, _ => true

/-- Whether any arm of a match is the wildcard pattern. -/
def armsHaveWildcard : List (MatchPat × Bool) → Bool
  | [] => false
  | (MatchPat.wild, _) :: _ => true
  | _ :: rest => armsHaveWildcard rest

/-- First-match evaluation of a list of arms on a scrutinee. -/
def evalArms : List (MatchPat × Bool) → AppDataType → Option Bool
  | [], _ => none
  | (p, r) :: rest, t => if p.covers t then some r else evalArms rest t

/-- Hypothetical extension of AppDataType with a sixth variant, used to
examine how the wildcard arm of is_shared would treat it. -/
inductive AppDataTypeExt where
  | UserConfig
  | UserData
  | UserCache
  | SharedData
  | SharedConfig
  | Future
deriving DecidableEq

/-- The is_shared match transcribed over the extended enumeration with
the same arms as the source: the wildcard arm absorbs the new variant. -/
def AppDataTypeExt.is_shared : AppDataTypeExt → Bool
  | .SharedData | .SharedConfig => true
  | _ => false

/-- Constant ERR_NOT_SUPPORTED (src/common.rs line 110). -/
def ERR_NOT_SUPPORTED : String := "App data directories not supported"

/-- Constant ERR_INVALID_APP_INFO (src/common.rs line 111). -/
def ERR_INVALID_APP_INFO : String := "Invalid app name or author"

/-- Error type for any app_dirs operation (src/common.rs lines 114-124). -/
inductive AppDirsError where
  | Io : IoError → AppDirsError
  | NotSupported : AppDirsError
  | InvalidAppInfo : AppDirsError
deriving DecidableEq

/-- Display for AppDirsError (src/common.rs lines 126-135), modelled as
the string the fmt implementation writes: the wrapped error message for
the Io variant, the two constants otherwise. -/
def AppDirsError.display : AppDirsError → String
  | .Io e => e.message
  | .NotSupported => ERR_NOT_SUPPORTED
  | .InvalidAppInfo => ERR_INVALID_APP_INFO

/-- The description method of the Error impl for AppDirsError
(src/common.rs lines 138-145): delegation for Io, string literals for
the other two variants. -/
def AppDirsError.description : AppDirsError → String
  | .Io e => e.description
  | .NotSupported => "App data directories not supported"
  | .InvalidAppInfo => "Invalid app name or author"

/-- The cause method of the Error impl for AppDirsError (src/common.rs
lines 146-153). -/
def AppDirsError.cause : AppDirsError → Option IoError
  | .Io e => some e
  | .NotSupported => none
  | .InvalidAppInfo => none

/-- The From conversion of std::io::Error into AppDirsError
(src/common.rs lines 156-160). -/
def AppDirsError.fromIo (e : IoError) : AppDirsError :=
  AppDirsError.Io e

/-- Claim C1: is_shared returns true exactly for SharedData and
SharedConfig, and false for UserConfig, UserData and UserCache; all five
variants enumerated. -/
theorem is_shared_iff_shared_variants :
    (∀ t : AppDataType,
      t.is_shared = true ↔ (t = AppDataType.SharedData ∨ t = AppDataType.SharedConfig))
    ∧ AppDataType.is_shared AppDataType.UserConfig = false
    ∧ AppDataType.is_shared AppDataType.UserData = false
    ∧ AppDataType.is_shared AppDataType.UserCache = false
    ∧ AppDataType.is_shared AppDataType.SharedData = true
    ∧ AppDataType.is_shared AppDataType.SharedConfig = true := by
  refine ⟨fun t => ?_, rfl, rfl, rfl, rfl, rfl⟩
  cases t <;> decide

/-- Claim C2: converting an I/O error into AppDirsError yields the Io
variant wrapping it, displays exactly the original error message with no
decoration, and exposes the original error as the cause. -/
theorem fromIo_wraps_identity (e : IoError) :
    AppDirsError.fromIo e = AppDirsError.Io e
    ∧ (AppDirsError.fromIo e).display = e.message
    ∧ (AppDirsError.fromIo e).cause = some e :=
  ⟨rfl, rfl, rfl⟩

/-- Claim C3: NotSupported displays exactly the string App data
directories not supported, and its cause is none. -/
theorem notSupported_display_and_cause :
    AppDirsError.NotSupported.display = "App data directories not supported"
    ∧ AppDirsError.NotSupported.cause = none :=
  ⟨rfl, rfl⟩

/-- Claim C4: InvalidAppInfo displays exactly the string Invalid app
name or author, and its cause is none. -/
theorem invalidAppInfo_display_and_cause :
    AppDirsError.InvalidAppInfo.display = "Invalid app name or author"
    ∧ AppDirsError.InvalidAppInfo.cause = none :=
  ⟨rfl, rfl⟩

/-- Claim C5: for any name and author strings, constructing either
AppInfo implementation and reading the accessors returns exactly the
inputs, with no transformation. -/
theorem appInfo_accessors_identity (n a : String) :
    AppInfo.name (StaticAppInfo.mk n a) = n
    ∧ AppInfo.author (StaticAppInfo.mk n a) = a
    ∧ AppInfo.name (OwningAppInfo.mk n a) = n
    ∧ AppInfo.author (OwningAppInfo.mk n a) = a :=
  ⟨rfl, rfl, rfl, rfl⟩

/-- Claim C6: two OwningAppInfo values, and likewise two StaticAppInfo
values, are equal iff their name fields agree and their author fields
agree, and equal values hash identically under any hasher. -/
theorem appInfo_eq_iff_fields_and_hash (x y : OwningAppInfo) (u v : StaticAppInfo)
    (h : String → Nat → Nat) (seed : Nat) :
    (x = y ↔ (x.name = y.name ∧ x.author = y.author))
    ∧ (x = y → OwningAppInfo.hashWith h seed x = OwningAppInfo.hashWith h seed y)
    ∧ (u = v ↔ (u.name = v.name ∧ u.author = v.author))
    ∧ (u = v → StaticAppInfo.hashWith h seed u = StaticAppInfo.hashWith h seed v) := by
  refine ⟨?_, fun hxy => by rw [hxy], ?_, fun huv => by rw [huv]⟩
  · cases x; cases y; simp
  · cases u; cases v; simp

/-- Concrete instantiation of the equality-and-hash theorem for the two
AppInfo structs, with a length-summing hasher. -/
theorem appInfo_eq_iff_fields_and_hash_witness :
    OwningAppInfo.hashWith (fun s k => k + s.length) 0 (OwningAppInfo.mk "MyApp" "MyCompany")
      = OwningAppInfo.hashWith (fun s k => k + s.length) 0 (OwningAppInfo.mk "MyApp" "MyCompany") :=
  (appInfo_eq_iff_fields_and_hash (OwningAppInfo.mk "MyApp" "MyCompany")
    (OwningAppInfo.mk "MyApp" "MyCompany") (StaticAppInfo.mk "A" "B") (StaticAppInfo.mk "A" "B")
    (fun s k => k + s.length) 0).2.1 rfl

/-- Claim C7 counterexample: the match inside is_shared is not a literal
enumeration of the five variants; its final arm is the wildcard pattern,
so a new variant would be absorbed silently rather than rejected. -/
theorem is_shared_match_not_literal_enumeration :
    ¬ (armsHaveWildcard is_shared_arms = false) := by
  decide

/-- Claim C7 amended: the arms of is_shared name only SharedData and
SharedConfig and end in a wildcard arm; those arms compute exactly
is_shared on the five variants, and transcribing the same arms over an
enumeration with a sixth variant sends the new variant silently through
the wildcard arm, classifying it as not shared. -/
theorem is_shared_wildcard_default :
    armsHaveWildcard is_shared_arms = true
    ∧ (∀ t : AppDataType, evalArms is_shared_arms t = some t.is_shared)
    ∧ AppDataTypeExt.is_shared AppDataTypeExt.Future = false := by
  refine ⟨rfl, fun t => ?_, rfl⟩
  cases t <;> decide

/-- Claim C8: the public operations are deterministic: on equal inputs,
the accessors, is_shared, the From conversion and Display produce equal
outputs; all are pure functions in this embedding. -/
theorem operations_deterministic
    (s t : StaticAppInfo) (o p : OwningAppInfo) (d d' : AppDataType)
    (e e' : IoError) (x y : AppDirsError)
    (hst : s = t) (hop : o = p) (hd : d = d') (he : e = e') (hxy : x = y) :
    AppInfo.name s = AppInfo.name t
    ∧ AppInfo.author s = AppInfo.author t
    ∧ AppInfo.name o = AppInfo.name p
    ∧ AppInfo.author o = AppInfo.author p
    ∧ d.is_shared = d'.is_shared
    ∧ AppDirsError.fromIo e = AppDirsError.fromIo e'
    ∧ x.display = y.display := by
  subst hst; subst hop; subst hd; subst he; subst hxy
  exact ⟨rfl, rfl, rfl, rfl, rfl, rfl, rfl⟩

/-- Concrete instantiation of the determinism theorem. -/
theorem operations_deterministic_witness :
    AppInfo.name (StaticAppInfo.mk "MyApp" "MyCompany")
      = AppInfo.name (StaticAppInfo.mk "MyApp" "MyCompany")
    ∧ AppInfo.author (StaticAppInfo.mk "MyApp" "MyCompany")
      = AppInfo.author (StaticAppInfo.mk "MyApp" "MyCompany")
    ∧ AppInfo.name (OwningAppInfo.mk "MyApp" "MyCompany")
      = AppInfo.name (OwningAppInfo.mk "MyApp" "MyCompany")
    ∧ AppInfo.author (OwningAppInfo.mk "MyApp" "MyCompany")
      = AppInfo.author (OwningAppInfo.mk "MyApp" "MyCompany")
    ∧ AppDataType.UserCache.is_shared = AppDataType.UserCache.is_shared
    ∧ AppDirsError.fromIo (IoError.mk "m" "d") = AppDirsError.fromIo (IoError.mk "m" "d")
    ∧ AppDirsError.NotSupported.display = AppDirsError.NotSupported.display :=
  operations_deterministic (StaticAppInfo.mk "MyApp" "MyCompany")
    (StaticAppInfo.mk "MyApp" "MyCompany") (OwningAppInfo.mk "MyApp" "MyCompany")
    (OwningAppInfo.mk "MyApp" "MyCompany") AppDataType.UserCache AppDataType.UserCache
    (IoError.mk "m" "d") (IoError.mk "m" "d")
    AppDirsError.NotSupported AppDirsError.NotSupported rfl rfl rfl rfl rfl

/-- Claim C9: description agrees with Display on the two payload-free
variants, returning the exact constant strings, and delegates to the
wrapped error for the Io variant. -/
theorem description_agrees_with_display (e : IoError) :
    AppDirsError.NotSupported.description = AppDirsError.NotSupported.display
    ∧ AppDirsError.NotSupported.description = "App data directories not supported"
    ∧ AppDirsError.InvalidAppInfo.description = AppDirsError.InvalidAppInfo.display
    ∧ AppDirsError.InvalidAppInfo.description = "Invalid app name or author"
    ∧ (AppDirsError.Io e).description = e.description :=
  ⟨rfl, rfl, rfl, rfl, rfl⟩

/-- Claim C10: the static and owning AppInfo implementations are
observationally equivalent through the AppInfo interface: built from the
same strings, both accessors agree. -/
theorem static_owning_observational_equiv (n a : String) :
    AppInfo.name (StaticAppInfo.mk n a) = AppInfo.name (OwningAppInfo.mk n a)
    ∧ AppInfo.author (StaticAppInfo.mk n a) = AppInfo.author (OwningAppInfo.mk n a) :=
  ⟨rfl, rfl⟩
